import Mathlib

/-!
Shallow embedding of the dispatch-router core (Rust) in Lean 4.

Conventions of the embedding:
* `u8` fields are `Nat` together with the explicit saturation / range
  checks the Rust code performs (`saturating_add` becomes
  `min (x + 1) 255`; `u8` deserialization fails above 255).
* `f64` values that the program computes with are embedded as `ℚ`
  (exact real arithmetic); the one place where IEEE special values
  matter — the `total_cmp` comparison used by candidate selection —
  is modelled by `FScore`, which keeps NaN with its sign explicit,
  ordered the way `f64::total_cmp` orders it.
* `Uuid` and timestamps are `Nat` parameters (the code only compares
  ids for equality and stores timestamps opaquely).
* `DashMap` registries are association lists looked up by the key
  projection; `insert` shadows the old binding, `get_mut` is a keyed
  in-place update.
* The haversine distance (src/geo/mod.rs) is transcendental; scoring
  takes the computed pickup distance through an explicit `dist`
  function parameter standing for `haversine_km`.
-/

namespace DispatchRouter

/-- Embeds `GeoPoint` from src/models/courier.rs: latitude / longitude pair. -/
structure GeoPoint where
  lat : ℚ
  lng : ℚ
deriving DecidableEq, Repr

/-- Embeds `CourierStatus` from src/models/courier.rs. -/
inductive CourierStatus where
  | Available
  | Busy
  | Offline
deriving DecidableEq, Repr

/-- Embeds `Courier` from src/models/courier.rs; `capacity` and `current_load`
are `u8` in the source, embedded as `Nat` (range facts are stated where
they matter). -/
structure Courier where
  id : Nat
  name : String
  location : GeoPoint
  capacity : Nat
  current_load : Nat
  status : CourierStatus
  rating : ℚ
  updated_at : Nat
deriving DecidableEq, Repr

/-- Embeds `Priority` from src/models/order.rs. -/
inductive Priority where
  | Low
  | Normal
  | High
  | Urgent
deriving DecidableEq, Repr

/-- Embeds `OrderStatus` from src/models/order.rs. -/
inductive OrderStatus where
  | Pending
  | Assigned
  | InTransit
  | Delivered
deriving DecidableEq, Repr

/-- Embeds `DeliveryOrder` from src/models/order.rs. -/
structure DeliveryOrder where
  id : Nat
  pickup : GeoPoint
  dropoff : GeoPoint
  priority : Priority
  status : OrderStatus
  assigned_courier : Option Nat
  created_at : Nat
deriving DecidableEq, Repr

/-- Embeds `ScoreBreakdown` from src/models/assignment.rs. -/
structure ScoreBreakdown where
  distance_score : ℚ
  load_score : ℚ
  rating_score : ℚ
  priority_score : ℚ
deriving DecidableEq, Repr

/-- Embeds `Assignment` from src/models/assignment.rs. -/
structure Assignment where
  id : Nat
  order_id : Nat
  courier_id : Nat
  score : ℚ
  score_breakdown : ScoreBreakdown
  assigned_at : Nat
deriving DecidableEq, Repr

/-- Embeds `AppError` from src/error.rs (messages kept only where a claim
mentions them). -/
inductive AppError where
  | NotFound (msg : String)
  | BadRequest (msg : String)
  | Conflict (msg : String)
  | NoAvailableCouriers
  | Internal (msg : String)
deriving DecidableEq, Repr

/-- HTTP status mapping of `impl IntoResponse for AppError`
(src/error.rs). -/
def status_code : AppError → Nat
  | .NotFound _ => 404
  | .BadRequest _ => 400
  | .Conflict _ => 409
  | .NoAvailableCouriers => 503
  | .Internal _ => 500

/-! ## Scoring (src/engine/scoring.rs) -/

def DISTANCE_WEIGHT : ℚ := 0.40
def LOAD_WEIGHT : ℚ := 0.30
def RATING_WEIGHT : ℚ := 0.20
def PRIORITY_WEIGHT : ℚ := 0.10

/-- Embeds `distance_score` from src/engine/scoring.rs:
`1.0 / (1.0 + distance_km.max(0.0))`. -/
def distance_score (distance_km : ℚ) : ℚ :=
  1 / (1 + max distance_km 0)

/-- Embeds `load_score` from src/engine/scoring.rs. Rust
`x.clamp(0.0, 1.0)` is `min (max x 0) 1`. -/
def load_score (current_load capacity : Nat) : ℚ :=
  if capacity = 0 then 0
  else
    let utilization : ℚ := (current_load : ℚ) / (capacity : ℚ)
    min (max (1 - utilization) 0) 1

/-- Embeds `rating_score` from src/engine/scoring.rs: `(rating / 5.0).clamp(0.0, 1.0)`. -/
def rating_score (rating : ℚ) : ℚ :=
  min (max (rating / 5) 0) 1

/-- Embeds `priority_score` from src/engine/scoring.rs. -/
def priority_score : Priority → ℚ
  | .Low => 0.5
  | .Normal => 0.7
  | .High => 0.85
  | .Urgent => 1.0

/-- Embeds `weighted_score` from src/engine/scoring.rs. -/
def weighted_score (breakdown : ScoreBreakdown) : ℚ :=
  breakdown.distance_score * DISTANCE_WEIGHT
    + breakdown.load_score * LOAD_WEIGHT
    + breakdown.rating_score * RATING_WEIGHT
    + breakdown.priority_score * PRIORITY_WEIGHT

/-- Embeds `compute_score` from src/engine/scoring.rs. `dist` stands for
`haversine_km` (src/geo/mod.rs), applied to the courier location and
the order pickup exactly as in the source. -/
def compute_score (dist : GeoPoint → GeoPoint → ℚ)
    (courier : Courier) (order : DeliveryOrder) : ℚ × ScoreBreakdown :=
  let distance_km := dist courier.location order.pickup
  let breakdown : ScoreBreakdown :=
    { distance_score := distance_score distance_km
      load_score := load_score courier.current_load courier.capacity
      rating_score := rating_score courier.rating
      priority_score := priority_score order.priority }
  (weighted_score breakdown, breakdown)

/-! ## Candidate selection under `f64::total_cmp` (src/engine/assignment.rs)

`process_order` selects the winner with
`.max_by(|a, b| a.1.total_cmp(&b.1))`. IEEE-754 total order — what
`total_cmp` implements — places every NaN with a set sign bit below all
numbers and every NaN with a clear sign bit above all numbers.
`FScore` abstracts an `f64` score to exactly what that comparison
distinguishes here: a numeric value (ordered as a rational) or a NaN of
either sign. -/

/-- Abstraction of an `f64` score for the `total_cmp`-based selection:
either a numeric value, or NaN with a negative / positive sign bit. -/
inductive FScore where
  | negNaN
  | finite (val : ℚ)
  | posNaN
deriving DecidableEq, Repr

/-- Embeds `f64::total_cmp` on `FScore`: `negNaN < finite _ < posNaN`, numeric
values ordered by value. -/
def totalCmp : FScore → FScore → Ordering
  | .negNaN, .negNaN => .eq
  | .negNaN, _ => .lt
  | _, .negNaN => .gt
  | .posNaN, .posNaN => .eq
  | .posNaN, _ => .gt
  | _, .posNaN => .lt
  | .finite a, .finite b => compare a b

/-- Rust `Iterator::max_by`: folds over the elements keeping the current
maximum, and on ties keeps the later element; `none` on the empty
iterator. -/
def maxBy (cmp : α → α → Ordering) : List α → Option α
  | [] => none
  | x :: xs => some (xs.foldl (fun acc y => if cmp acc y = .gt then acc else y) x)

/-- The selection step of `process_order` (src/engine/assignment.rs lines
83–90), abstracted over the scored candidate list: each candidate is an id
paired with its computed score. -/
def select_winner (scored : List (Nat × FScore)) : Option (Nat × FScore) :=
  maxBy (fun a b => totalCmp a.2 b.2) scored

/-- One `max_by` fold step, specialised to scored candidates. -/
def pickMax (acc y : Nat × FScore) : Nat × FScore :=
  if totalCmp acc.2 y.2 = .gt then acc else y

/-! ## Registries (src/state.rs)

`DashMap` registries are embedded as association lists together with a
key projection: `insert` shadows any existing binding for the key,
`get_mut` is a keyed in-place update, lookup is the first hit. -/

def lookupBy (key : α → Nat) (l : List α) (k : Nat) : Option α :=
  l.find? (fun x => key x == k)

def insertBy (key : α → Nat) (l : List α) (a : α) : List α :=
  a :: l.filter (fun x => ! (key x == key a))

def updateBy (key : α → Nat) (l : List α) (k : Nat) (f : α → α) : List α :=
  l.map (fun x => if key x == k then f x else x)

/-- The whole mutable application state (`AppState` in src/state.rs):
the three registries, the contents of the bounded order queue, and the
`orders_in_queue` gauge value. -/
structure AppModel where
  couriers : List Courier
  orders : List DeliveryOrder
  assignments : List Assignment
  queue : List DeliveryOrder
  orders_in_queue : Int
deriving DecidableEq, Repr

/-! ## Queue (src/engine/queue.rs) -/

/-- Embeds `enqueue_order` from src/engine/queue.rs: awaits the channel send,
then increments the `orders_in_queue` gauge. `sendOk` is false exactly
when the consumer endpoint is gone, in which case the send fails with an
internal error and the gauge is untouched. -/
def enqueue_order (sendOk : Bool) (order : DeliveryOrder) (s : AppModel) :
    AppModel × Except AppError Unit :=
  if sendOk then
    ({ s with queue := s.queue ++ [order],
              orders_in_queue := s.orders_in_queue + 1 }, .ok ())
  else
    (s, .error (.Internal "order queue send failed"))

/-! ## REST handlers (src/api/rest/couriers.rs, src/api/rest/orders.rs) -/

/-- The JSON body of `POST /couriers` before field narrowing: the
`capacity` field of `CreateCourierRequest` is `u8` in the source, so the
raw (non-negative) JSON integer is kept here and the `u8` narrowing is
performed explicitly by the deserialization stage. -/
structure RawCreateCourierRequest where
  name : String
  location : GeoPoint
  capacity : Nat
  rating : ℚ
deriving DecidableEq, Repr

instance {ε α : Type} [DecidableEq ε] [DecidableEq α] :
    DecidableEq (Except ε α) := fun x y =>
  match x, y with
  | .ok a, .ok b =>
    if h : a = b then .isTrue (by rw [h])
    else .isFalse (by intro hc; cases hc; exact h rfl)
  | .error a, .error b =>
    if h : a = b then .isTrue (by rw [h])
    else .isFalse (by intro hc; cases hc; exact h rfl)
  | .ok _, .error _ => .isFalse (by intro hc; cases hc)
  | .error _, .ok _ => .isFalse (by intro hc; cases hc)

/-- Outcome of `POST /couriers` including the axum `Json` extractor
stage: a `capacity` above 255 does not fit `u8`, so deserialization of
`CreateCourierRequest` fails and the body is rejected before
`create_courier` runs. -/
inductive CreateCourierResponse where
  | rejectedBody
  | handled (result : Except AppError Courier)
deriving DecidableEq, Repr

/-- Rust `char::is_whitespace`: the Unicode White_Space property —
U+0009..U+000D, U+0020, U+0085, U+00A0, U+1680, U+2000..U+200A, U+2028,
U+2029, U+202F, U+205F, U+3000. -/
def rust_is_whitespace (c : Char) : Bool :=
  let n := c.toNat
  n = 0x9 || n = 0xA || n = 0xB || n = 0xC || n = 0xD || n = 0x20 ||
    n = 0x85 || n = 0xA0 || n = 0x1680 || (0x2000 ≤ n && n ≤ 0x200A) ||
    n = 0x2028 || n = 0x2029 || n = 0x202F || n = 0x205F || n = 0x3000

/-- Rust `str::trim` (used as `payload.name.trim().is_empty()` in both
courier-creation handlers), modelled on the character list: drop Unicode
White_Space characters from both ends. -/
def trim_chars (s : String) : List Char :=
  ((s.data.dropWhile rust_is_whitespace).reverse.dropWhile rust_is_whitespace).reverse

/-- Embeds `create_courier` from src/api/rest/couriers.rs, composed with the
`u8` deserialization of the `capacity` field. -/
def create_courier (freshId now : Nat) (req : RawCreateCourierRequest) :
    CreateCourierResponse :=
  if 255 < req.capacity then .rejectedBody
  else if (trim_chars req.name).isEmpty then .handled (.error (.BadRequest "name cannot be empty"))
  else if req.capacity = 0 then .handled (.error (.BadRequest "capacity must be > 0"))
  else .handled (.ok
    { id := freshId
      name := req.name
      location := req.location
      capacity := req.capacity
      current_load := 0
      status := .Available
      rating := min (max req.rating 0) 5
      updated_at := now })

/-- Embeds tonic `Status` errors as produced by the gRPC handlers
(src/api/grpc/mod.rs); only `invalid_argument` is needed here. -/
inductive GrpcStatus where
  | invalidArgument (msg : String)
deriving DecidableEq, Repr

/-- The gRPC `CreateCourierRequest` (src/api/grpc/mod.rs): `capacity` is
a protobuf `u32`, so values above 255 reach the handler; the `location`
message field is optional. -/
structure GrpcCreateCourierRequest where
  name : String
  location : Option GeoPoint
  capacity : Nat
  rating : ℚ
deriving DecidableEq, Repr

/-- Embeds the gRPC `create_courier` from src/api/grpc/mod.rs: blank name
and zero capacity are rejected with `invalid_argument`, a missing
location likewise; the stored capacity is `req.capacity.min(255) as u8`,
i.e. values above 255 are accepted and capped to 255. -/
def grpc_create_courier (freshId now : Nat) (req : GrpcCreateCourierRequest) :
    Except GrpcStatus Courier :=
  if (trim_chars req.name).isEmpty then .error (.invalidArgument "name cannot be empty")
  else if req.capacity = 0 then .error (.invalidArgument "capacity must be > 0")
  else
    match req.location with
    | none => .error (.invalidArgument "location is required")
    | some loc => .ok
        { id := freshId
          name := req.name
          location := loc
          capacity := min req.capacity 255
          current_load := 0
          status := .Available
          rating := min (max req.rating 0) 5
          updated_at := now }

/-- The record mutation of `update_courier_status`
(src/api/rest/couriers.rs): sets `status` and `updated_at` only. -/
def patch_status (now : Nat) (st : CourierStatus) (c : Courier) : Courier :=
  { c with status := st, updated_at := now }

/-- The record mutation of `update_courier_location`
(src/api/rest/couriers.rs): sets `location` and `updated_at` only. -/
def patch_location (now : Nat) (loc : GeoPoint) (c : Courier) : Courier :=
  { c with location := loc, updated_at := now }

/-- Embeds `update_courier_status` from src/api/rest/couriers.rs: 404 on an
unknown id, otherwise mutate the entry in place and return the updated
record. -/
def update_courier_status (now : Nat) (couriers : List Courier)
    (id : Nat) (st : CourierStatus) :
    List Courier × Except AppError Courier :=
  match lookupBy Courier.id couriers id with
  | none => (couriers, .error (.NotFound "courier not found"))
  | some c =>
    (updateBy Courier.id couriers id (patch_status now st), .ok (patch_status now st c))

/-- Embeds `update_courier_location` from src/api/rest/couriers.rs. -/
def update_courier_location (now : Nat) (couriers : List Courier)
    (id : Nat) (loc : GeoPoint) :
    List Courier × Except AppError Courier :=
  match lookupBy Courier.id couriers id with
  | none => (couriers, .error (.NotFound "courier not found"))
  | some c =>
    (updateBy Courier.id couriers id (patch_location now loc), .ok (patch_location now loc c))

/-- The JSON body of `POST /orders` (`CreateOrderRequest` in
src/api/rest/orders.rs). -/
structure CreateOrderRequest where
  pickup : GeoPoint
  dropoff : GeoPoint
  priority : Priority
deriving DecidableEq, Repr

/-- The order record built by `create_order` (src/api/rest/orders.rs):
fresh id, `status = Pending`, `assigned_courier = None`. -/
def create_order_record (freshId now : Nat) (req : CreateOrderRequest) :
    DeliveryOrder :=
  { id := freshId
    pickup := req.pickup
    dropoff := req.dropoff
    priority := req.priority
    status := .Pending
    assigned_courier := none
    created_at := now }

/-- Embeds `create_order` from src/api/rest/orders.rs: build the Pending
record, insert it into the orders registry, then enqueue; a failing
enqueue propagates its internal error and nothing is rolled back. -/
def create_order (freshId now : Nat) (sendOk : Bool) (s : AppModel)
    (req : CreateOrderRequest) : AppModel × Except AppError DeliveryOrder :=
  let order := create_order_record freshId now req
  let s1 := { s with orders := insertBy DeliveryOrder.id s.orders order }
  match enqueue_order sendOk order s1 with
  | (s2, .ok _) => (s2, .ok order)
  | (s2, .error e) => (s2, .error e)

/-! ## Assignment engine (src/engine/assignment.rs) -/

/-- The candidate filter of `process_order`: a courier is eligible iff
`status == Available && current_load < capacity`. -/
def eligible (c : Courier) : Bool :=
  decide (c.status = CourierStatus.Available) && decide (c.current_load < c.capacity)

/-- The order-record overwrite of the engine commit:
`status = Assigned`, `assigned_courier = Some(winner id)` in the same
record. -/
def assign_order_record (o : DeliveryOrder) (winnerId : Nat) : DeliveryOrder :=
  { o with status := .Assigned, assigned_courier := some winnerId }

/-- The winner-courier mutation of the engine commit
(src/engine/assignment.rs lines 97–102): `u8::saturating_add` is
`min (x + 1) 255`; the courier flips to `Busy` when the new load reaches
capacity; `updated_at` is refreshed. -/
def commit_courier (now : Nat) (c : Courier) : Courier :=
  let load := min (c.current_load + 1) 255
  { c with current_load := load
           status := if c.capacity ≤ load then .Busy else c.status
           updated_at := now }

/-- Result of one `process_order` iteration: the state afterwards, the
returned outcome, and how long the iteration slept (the 250 ms
no-candidate delay, 0 otherwise). -/
structure ProcResult where
  state : AppModel
  outcome : Except AppError Unit
  sleptMs : Nat
deriving Repr

/-- Embeds `process_order` from src/engine/assignment.rs, scores embedded as
rationals (well-formed inputs). In the empty-candidate branch the
re-enqueue send cannot fail — the engine itself holds the receiver while
it runs — so it is the successful `enqueue_order`. -/
def process_order (dist : GeoPoint → GeoPoint → ℚ) (now assignId : Nat)
    (s : AppModel) (order : DeliveryOrder) : ProcResult :=
  let candidates := s.couriers.filter eligible
  if candidates.isEmpty then
    { state := (enqueue_order true order s).1, outcome := .ok (), sleptMs := 250 }
  else
    let scored := candidates.map (fun c => (c, compute_score dist c order))
    match maxBy (fun a b => compare a.2.1 b.2.1) scored with
    | none =>
      { state := s, outcome := .error (.Internal "failed to score couriers"), sleptMs := 0 }
    | some (winner, best_score, best_breakdown) =>
      let updated_order := assign_order_record order winner.id
      let s1 := { s with orders := insertBy DeliveryOrder.id s.orders updated_order }
      let s2 := { s1 with
        couriers := updateBy Courier.id s1.couriers winner.id (commit_courier now) }
      let assignment : Assignment :=
        { id := assignId
          order_id := updated_order.id
          courier_id := winner.id
          score := best_score
          score_breakdown := best_breakdown
          assigned_at := now }
      let s3 := { s2 with assignments := insertBy Assignment.id s2.assignments assignment }
      { state := s3, outcome := .ok (), sleptMs := 0 }

/-! ## Queue-depth gauge as a transition system (C3)

`enqueue_order` performs the channel send and only then increments the
`orders_in_queue` gauge; the engine loop receives and only then
decrements. Each of the four actions is atomic, but a send/receive and
its gauge update are not one atomic step, so all interleavings of the
four micro-steps are admitted. `pendingIncs` counts sends whose `+1` has
not executed yet; `pendingDecs` counts receives whose `−1` has not
executed yet. -/

structure GaugeState where
  queue : Nat
  gauge : Int
  pendingIncs : Nat
  pendingDecs : Nat
deriving DecidableEq, Repr

inductive GaugeStep : GaugeState → GaugeState → Prop where
  | send (q : Nat) (g : Int) (pI pD : Nat) :
      GaugeStep ⟨q, g, pI, pD⟩ ⟨q + 1, g, pI + 1, pD⟩
  | inc (q : Nat) (g : Int) (pI pD : Nat) :
      GaugeStep ⟨q, g, pI + 1, pD⟩ ⟨q, g + 1, pI, pD⟩
  | recv (q : Nat) (g : Int) (pI pD : Nat) :
      GaugeStep ⟨q + 1, g, pI, pD⟩ ⟨q, g, pI, pD + 1⟩
  | dec (q : Nat) (g : Int) (pI pD : Nat) :
      GaugeStep ⟨q, g, pI, pD + 1⟩ ⟨q, g - 1, pI, pD⟩

inductive GaugeReachable : GaugeState → Prop where
  | init : GaugeReachable ⟨0, 0, 0, 0⟩
  | step {s t : GaugeState} : GaugeReachable s → GaugeStep s t → GaugeReachable t

/-! ## Concrete sample data

Concrete records used to instantiate the hypotheses of the proved
theorems on executable inputs. -/

def sampleCourier : Courier :=
  { id := 1, name := "max", location := ⟨0, 0⟩, capacity := 2, current_load := 1,
    status := .Available, rating := 4, updated_at := 0 }

def sampleFullCourier : Courier :=
  { id := 2, name := "mia", location := ⟨1, 1⟩, capacity := 3, current_load := 3,
    status := .Busy, rating := 5, updated_at := 0 }

def sampleOrder : DeliveryOrder :=
  { id := 5, pickup := ⟨0, 0⟩, dropoff := ⟨1, 1⟩, priority := .Normal,
    status := .Pending, assigned_courier := none, created_at := 0 }

def sampleEmptyState : AppModel :=
  { couriers := [], orders := [], assignments := [], queue := [], orders_in_queue := 0 }

/-! ## Helper lemmas -/

theorem totalCmp_self (a : FScore) : totalCmp a a ≠ .gt := by
  cases a <;> simp [totalCmp, compare_gt_iff_gt]

theorem totalCmp_asymm {a b : FScore} (h : totalCmp a b = .gt) :
    totalCmp b a ≠ .gt := by
  cases a <;> cases b <;>
    simp_all [totalCmp, compare_gt_iff_gt] <;> linarith

theorem totalCmp_trans_not_gt {a b c : FScore}
    (hab : totalCmp a b ≠ .gt) (hbc : totalCmp b c ≠ .gt) :
    totalCmp a c ≠ .gt := by
  cases a <;> cases b <;> cases c <;>
    simp_all [totalCmp, compare_gt_iff_gt] <;> linarith

/-- Everything below negative NaN in total order is negative NaN. -/
theorem totalCmp_negNaN_bound {a : FScore} (h : totalCmp a .negNaN ≠ .gt) :
    a = .negNaN := by
  cases a <;> simp_all [totalCmp]

theorem foldl_pickMax_spec (xs : List (Nat × FScore)) :
    ∀ x : Nat × FScore,
      xs.foldl pickMax x ∈ x :: xs ∧
      totalCmp x.2 (xs.foldl pickMax x).2 ≠ .gt ∧
      ∀ y ∈ xs, totalCmp y.2 (xs.foldl pickMax x).2 ≠ .gt := by
  induction xs with
  | nil =>
    intro x
    refine ⟨List.mem_singleton.mpr rfl, totalCmp_self x.2, ?_⟩
    intro y hy; cases hy
  | cons y t ih =>
    intro x
    have hstep : List.foldl pickMax x (y :: t) = List.foldl pickMax (pickMax x y) t := rfl
    obtain ⟨hmem, hacc, hall⟩ := ih (pickMax x y)
    have hx_step : totalCmp x.2 (pickMax x y).2 ≠ .gt := by
      unfold pickMax
      by_cases hgt : totalCmp x.2 y.2 = .gt
      · simp [hgt, totalCmp_self]
      · simp [hgt]
    have hy_step : totalCmp y.2 (pickMax x y).2 ≠ .gt := by
      unfold pickMax
      by_cases hgt : totalCmp x.2 y.2 = .gt
      · simpa [hgt] using totalCmp_asymm hgt
      · simp [hgt, totalCmp_self]
    refine ⟨?_, ?_, ?_⟩
    · rw [hstep]
      rcases List.mem_cons.mp hmem with h | h
      · rw [h]
        unfold pickMax
        by_cases hgt : totalCmp x.2 y.2 = .gt
        · simp [hgt]
        · simp [hgt]
      · exact List.mem_cons_of_mem _ (List.mem_cons_of_mem _ h)
    · rw [hstep]
      exact totalCmp_trans_not_gt hx_step hacc
    · intro z hz
      rw [hstep]
      rcases List.mem_cons.mp hz with h | h
      · rw [h]
        exact totalCmp_trans_not_gt hy_step hacc
      · exact hall z h

theorem lookupBy_insertBy_self (key : α → Nat) (l : List α) (a : α) :
    lookupBy key (insertBy key l a) (key a) = some a := by
  simp [lookupBy, insertBy, List.find?]

theorem mem_insertBy (key : α → Nat) (l : List α) (a : α) :
    a ∈ insertBy key l a := by
  simp [insertBy]

theorem lookupBy_updateBy (key : α → Nat) (l : List α) (k : Nat) (f : α → α)
    (hk : ∀ x, key (f x) = key x) {a : α}
    (h : lookupBy key l k = some a) :
    lookupBy key (updateBy key l k f) k = some (f a) := by
  induction l with
  | nil => simp [lookupBy] at h
  | cons x t ih =>
    by_cases hx : key x = k
    · have hb : (key x == k) = true := by simpa using hx
      simp [lookupBy, List.find?, hb] at h
      simp [lookupBy, updateBy, List.find?, hb, hk, ← h]
    · have hb : (key x == k) = false := by simpa using hx
      simp [lookupBy, List.find?, hb] at h
      simpa [lookupBy, updateBy, List.find?, hb, hk] using ih h


/-- Claim C1, counterexample: with candidate 1 scoring a plain 1.0 and
candidate 2 scoring a positive NaN, the
`max_by(total_cmp)` selection of the engine returns the NaN candidate — a candidate
whose computed score is NaN wins although a candidate with a non-NaN
score exists, contradicting "treated as losing — it never wins". -/
theorem C1_nan_candidate_wins :
    select_winner [(1, FScore.finite 1), (2, FScore.posNaN)] = some (2, FScore.posNaN) ∧
    (1, FScore.finite 1) ∈ [(1, FScore.finite 1), (2, FScore.posNaN)] := by
  exact ⟨by decide, by decide⟩

/-- Claim C1 (amended): for every non-empty scored candidate list the
engine picks a candidate of the list whose score is maximal under
`f64::total_cmp` total order; under that order a negative NaN loses to
every other score (it wins only if every candidate scores negative NaN),
while a positive NaN ranks above every non-NaN score and therefore wins
rather than loses. -/
theorem C1_selection_max_total_order (x : Nat × FScore) (xs : List (Nat × FScore)) :
    ∃ w, select_winner (x :: xs) = some w ∧ w ∈ x :: xs ∧
      (∀ y ∈ x :: xs, totalCmp y.2 w.2 ≠ .gt) ∧
      (w.2 = .negNaN → ∀ y ∈ x :: xs, y.2 = .negNaN) := by
  obtain ⟨hmem, hacc, hall⟩ := foldl_pickMax_spec xs x
  refine ⟨xs.foldl pickMax x, rfl, hmem, ?_, ?_⟩
  · intro y hy
    rcases List.mem_cons.mp hy with h | h
    · rw [h]; exact hacc
    · exact hall y h
  · intro hw y hy
    have hmax : totalCmp y.2 (xs.foldl pickMax x).2 ≠ .gt := by
      rcases List.mem_cons.mp hy with h | h
      · rw [h]; exact hacc
      · exact hall y h
    rw [hw] at hmax
    exact totalCmp_negNaN_bound hmax

/-- Claim C2, counterexample: a REST creation request — the path the
claim cites — with capacity 300 is rejected at body deserialization
(`capacity` is `u8` in `CreateCourierRequest`), not accepted with the
capacity capped to 255. -/
theorem C2_capacity_300_rejected :
    create_courier 0 0 ⟨"bob", ⟨0, 0⟩, 300, 4⟩ = .rejectedBody ∧
    CreateCourierResponse.rejectedBody ≠ .handled (.ok
      { id := 0, name := "bob", location := ⟨0, 0⟩, capacity := 255,
        current_load := 0, status := .Available, rating := 4, updated_at := 0 }) := by
  exact ⟨by decide, by decide⟩

/-- Claim C2 (amended): a courier-creation request with capacity 0 (and a
non-blank name) is rejected on both paths — HTTP 400 `BadRequest` on the
REST path and `invalid_argument` on the gRPC path. A requested capacity
above 255 is rejected on the REST path, whose `u8` body field fails
deserialization before the handler runs; it is accepted with the stored
capacity capped to 255 only on the gRPC path, whose `u32` capacity field
is stored as `req.capacity.min(255) as u8`. -/
theorem C2_capacity_validation (freshId now freshId2 now2 gId gNow gId2 gNow2 : Nat)
    (req reqBig : RawCreateCourierRequest)
    (greq greqBig : GrpcCreateCourierRequest) (loc : GeoPoint)
    (hname : (trim_chars req.name).isEmpty = false)
    (hzero : req.capacity = 0)
    (hbig : 255 < reqBig.capacity)
    (hgname : (trim_chars greq.name).isEmpty = false)
    (hgzero : greq.capacity = 0)
    (hgbname : (trim_chars greqBig.name).isEmpty = false)
    (hgbig : 255 < greqBig.capacity)
    (hgloc : greqBig.location = some loc) :
    create_courier freshId now req =
      .handled (.error (.BadRequest "capacity must be > 0")) ∧
    status_code (.BadRequest "capacity must be > 0") = 400 ∧
    create_courier freshId2 now2 reqBig = .rejectedBody ∧
    grpc_create_courier gId gNow greq =
      .error (.invalidArgument "capacity must be > 0") ∧
    grpc_create_courier gId2 gNow2 greqBig = .ok
      { id := gId2, name := greqBig.name, location := loc, capacity := 255,
        current_load := 0, status := .Available,
        rating := min (max greqBig.rating 0) 5, updated_at := gNow2 } := by
  refine ⟨?_, rfl, ?_, ?_, ?_⟩
  · simp [create_courier, hname, hzero]
  · simp [create_courier, hbig]
  · simp [grpc_create_courier, hgname, hgzero]
  · have hcap0 : ¬ greqBig.capacity = 0 := by omega
    simp [grpc_create_courier, hgbname, hgloc, hcap0]
    omega

/-- Witness for C2: the REST zero-capacity request named "alice" draws
the 400 `BadRequest` and the REST capacity-300 request is rejected at
deserialization, while the gRPC zero-capacity request "carol" draws
`invalid_argument` and the gRPC capacity-300 request "dave" is accepted
with the capacity capped to 255. -/
theorem C2_capacity_validation_witness :
    ((trim_chars "alice").isEmpty = false) ∧
    ((⟨"alice", ⟨0, 0⟩, 0, 4⟩ : RawCreateCourierRequest).capacity = 0) ∧
    (255 < (⟨"bob", ⟨0, 0⟩, 300, 4⟩ : RawCreateCourierRequest).capacity) ∧
    ((trim_chars "carol").isEmpty = false) ∧
    ((⟨"carol", some ⟨0, 0⟩, 0, 4⟩ : GrpcCreateCourierRequest).capacity = 0) ∧
    ((trim_chars "dave").isEmpty = false) ∧
    (255 < (⟨"dave", some ⟨0, 0⟩, 300, 4⟩ : GrpcCreateCourierRequest).capacity) ∧
    ((⟨"dave", some ⟨0, 0⟩, 300, 4⟩ : GrpcCreateCourierRequest).location = some ⟨0, 0⟩) ∧
    (create_courier 7 9 ⟨"alice", ⟨0, 0⟩, 0, 4⟩ =
       .handled (.error (.BadRequest "capacity must be > 0")) ∧
     status_code (.BadRequest "capacity must be > 0") = 400 ∧
     create_courier 0 0 ⟨"bob", ⟨0, 0⟩, 300, 4⟩ = .rejectedBody ∧
     grpc_create_courier 11 12 ⟨"carol", some ⟨0, 0⟩, 0, 4⟩ =
       .error (.invalidArgument "capacity must be > 0") ∧
     grpc_create_courier 13 14 ⟨"dave", some ⟨0, 0⟩, 300, 4⟩ = .ok
       { id := 13, name := "dave", location := ⟨0, 0⟩, capacity := 255,
         current_load := 0, status := .Available,
         rating := min (max 4 0) 5, updated_at := 14 }) :=
  ⟨by decide, by decide, by decide, by decide, by decide, by decide, by decide, by decide,
   C2_capacity_validation 7 9 0 0 11 12 13 14
     ⟨"alice", ⟨0, 0⟩, 0, 4⟩ ⟨"bob", ⟨0, 0⟩, 300, 4⟩
     ⟨"carol", some ⟨0, 0⟩, 0, 4⟩ ⟨"dave", some ⟨0, 0⟩, 300, 4⟩ ⟨0, 0⟩
     (by decide) (by decide) (by decide) (by decide) (by decide) (by decide)
     (by decide) (by decide)⟩

/-- Claim C3, counterexample: the gauge increment happens after the
channel send and the decrement after the receive, so the interleaving
send → receive → decrement drives `orders_in_queue` to −1 — the gauge
can be negative at an intermediate point of an interleaving. -/
theorem C3_gauge_transiently_negative :
    GaugeReachable ⟨0, -1, 1, 0⟩ ∧ (⟨0, -1, 1, 0⟩ : GaugeState).gauge < 0 :=
  ⟨((GaugeReachable.init.step (GaugeStep.send 0 0 0 0)).step
      (GaugeStep.recv 0 0 1 0)).step (GaugeStep.dec 0 0 1 0),
   by decide⟩

/-- Claim C3 (amended): every successful send pairs with a later `+1` and
every successful receive with a later `−1` (the transition system admits
exactly those four micro-steps); in every reachable state the gauge
equals the queue depth plus pending decrements minus pending increments,
so it is non-negative whenever no send is still awaiting its increment —
but between a send and its increment the decrement of a receive can push it
to −1. -/
theorem C3_gauge_accounting {s : GaugeState} (h : GaugeReachable s) :
    s.gauge = (s.queue : Int) + (s.pendingDecs : Int) - (s.pendingIncs : Int) ∧
    (s.pendingIncs = 0 → 0 ≤ s.gauge) := by
  induction h with
  | init => exact ⟨by decide, by intro; decide⟩
  | step hr hs ih =>
    obtain ⟨ih1, -⟩ := ih
    cases hs <;> simp_all <;> omega

/-- Witness for C3 at the reachable state after one completed
send/increment pair: queue depth 1, gauge 1, nothing pending. -/
theorem C3_gauge_accounting_witness :
    ((⟨1, 1, 0, 0⟩ : GaugeState).gauge =
      ((⟨1, 1, 0, 0⟩ : GaugeState).queue : Int)
        + ((⟨1, 1, 0, 0⟩ : GaugeState).pendingDecs : Int)
        - ((⟨1, 1, 0, 0⟩ : GaugeState).pendingIncs : Int)) ∧
    ((⟨1, 1, 0, 0⟩ : GaugeState).pendingIncs = 0 →
      0 ≤ (⟨1, 1, 0, 0⟩ : GaugeState).gauge) :=
  C3_gauge_accounting
    ((GaugeReachable.init.step (GaugeStep.send 0 0 0 0)).step (GaugeStep.inc 1 0 0 0))



/-- Claim C4: the engine is the only writer of `current_load`, so the
load the commit sees is the snapshot load; given the winner satisfied
`current_load < capacity` there, after the commit mutation
`current_load ≤ capacity`, the capacity itself is untouched, and
whenever the updated load reaches capacity the status is set to
`Busy`. -/
theorem C4_commit_respects_capacity (now : Nat) (c : Courier)
    (hload : c.current_load < c.capacity) :
    (commit_courier now c).capacity = c.capacity ∧
    (commit_courier now c).current_load ≤ c.capacity ∧
    (c.capacity ≤ (commit_courier now c).current_load →
      (commit_courier now c).status = .Busy) := by
  refine ⟨rfl, ?_, ?_⟩
  · simp only [commit_courier]
    omega
  · intro h
    simp only [commit_courier] at h ⊢
    simp [h]

/-- Witness for C4: a capacity-2 courier at load 1 commits to load 2 and
flips to `Busy`. -/
theorem C4_commit_respects_capacity_witness :
    (sampleCourier.current_load < sampleCourier.capacity) ∧
    ((commit_courier 5 sampleCourier).capacity = sampleCourier.capacity ∧
     (commit_courier 5 sampleCourier).current_load ≤ sampleCourier.capacity ∧
     (sampleCourier.capacity ≤ (commit_courier 5 sampleCourier).current_load →
      (commit_courier 5 sampleCourier).status = .Busy)) :=
  ⟨by decide, C4_commit_respects_capacity 5 sampleCourier (by decide)⟩

/-- Claim C5: the record ingress order creation stores satisfies
`status = Pending ↔ assigned_courier = none`, and the record the engine
commit overwrites it with sets `status = Assigned` and
`assigned_courier = Some(winner)` together, so the equivalence holds for
it as well. -/
theorem C5_pending_iff_unassigned (freshId now : Nat) (req : CreateOrderRequest)
    (o : DeliveryOrder) (winnerId : Nat) :
    ((create_order_record freshId now req).status = .Pending ↔
      (create_order_record freshId now req).assigned_courier = none) ∧
    (create_order_record freshId now req).status = .Pending ∧
    (create_order_record freshId now req).assigned_courier = none ∧
    (assign_order_record o winnerId).status = .Assigned ∧
    (assign_order_record o winnerId).assigned_courier = some winnerId ∧
    ((assign_order_record o winnerId).status = .Pending ↔
      (assign_order_record o winnerId).assigned_courier = none) := by
  simp [create_order_record, assign_order_record]



theorem distance_score_bounds (d : ℚ) :
    0 ≤ distance_score d ∧ distance_score d ≤ 1 := by
  unfold distance_score
  have h0 : (0 : ℚ) ≤ max d 0 := le_max_right d 0
  constructor
  · positivity
  · rw [div_le_one (by linarith)]
    linarith

theorem load_score_bounds (l c : Nat) :
    0 ≤ load_score l c ∧ load_score l c ≤ 1 := by
  unfold load_score
  split
  · norm_num
  · exact ⟨le_min (le_max_right _ _) zero_le_one, min_le_right _ _⟩

theorem rating_score_bounds (r : ℚ) :
    0 ≤ rating_score r ∧ rating_score r ≤ 1 := by
  unfold rating_score
  exact ⟨le_min (le_max_right _ _) zero_le_one, min_le_right _ _⟩

theorem priority_score_bounds (p : Priority) :
    0 ≤ priority_score p ∧ priority_score p ≤ 1 := by
  cases p <;> norm_num [priority_score]

/-- Claim C6: for every courier, order and pickup distance, all four
factor scores lie in [0, 1], the four weights sum to 1, and the total
weighted score lies in [0, 1]. -/
theorem C6_score_in_unit_interval (dist : GeoPoint → GeoPoint → ℚ)
    (c : Courier) (o : DeliveryOrder) :
    (0 ≤ (compute_score dist c o).2.distance_score ∧
      (compute_score dist c o).2.distance_score ≤ 1) ∧
    (0 ≤ (compute_score dist c o).2.load_score ∧
      (compute_score dist c o).2.load_score ≤ 1) ∧
    (0 ≤ (compute_score dist c o).2.rating_score ∧
      (compute_score dist c o).2.rating_score ≤ 1) ∧
    (0 ≤ (compute_score dist c o).2.priority_score ∧
      (compute_score dist c o).2.priority_score ≤ 1) ∧
    DISTANCE_WEIGHT + LOAD_WEIGHT + RATING_WEIGHT + PRIORITY_WEIGHT = 1 ∧
    (0 ≤ (compute_score dist c o).1 ∧ (compute_score dist c o).1 ≤ 1) := by
  obtain ⟨hd0, hd1⟩ := distance_score_bounds (dist c.location o.pickup)
  obtain ⟨hl0, hl1⟩ := load_score_bounds c.current_load c.capacity
  obtain ⟨hr0, hr1⟩ := rating_score_bounds c.rating
  obtain ⟨hp0, hp1⟩ := priority_score_bounds o.priority
  simp only [compute_score, weighted_score]
  refine ⟨⟨hd0, hd1⟩, ⟨hl0, hl1⟩, ⟨hr0, hr1⟩, ⟨hp0, hp1⟩, by norm_num [DISTANCE_WEIGHT, LOAD_WEIGHT, RATING_WEIGHT, PRIORITY_WEIGHT], ?_, ?_⟩
  · unfold DISTANCE_WEIGHT LOAD_WEIGHT RATING_WEIGHT PRIORITY_WEIGHT
    nlinarith
  · unfold DISTANCE_WEIGHT LOAD_WEIGHT RATING_WEIGHT PRIORITY_WEIGHT
    nlinarith

/-- Claim C7: when the candidate filter finds no eligible courier,
`process_order` sleeps 250 ms, re-enqueues the same order at the back of
the queue, reports success, and leaves the orders registry (hence the
record of the order) unchanged. -/
theorem C7_empty_candidates_requeue (dist : GeoPoint → GeoPoint → ℚ)
    (now assignId : Nat) (s : AppModel) (order : DeliveryOrder)
    (h : s.couriers.filter eligible = []) :
    (process_order dist now assignId s order).sleptMs = 250 ∧
    (process_order dist now assignId s order).state.queue = s.queue ++ [order] ∧
    (process_order dist now assignId s order).outcome = .ok () ∧
    (process_order dist now assignId s order).state.orders = s.orders := by
  simp [process_order, h, enqueue_order]

/-- Witness for C7 on the empty courier registry. -/
theorem C7_empty_candidates_requeue_witness :
    (sampleEmptyState.couriers.filter eligible = []) ∧
    ((process_order (fun _ _ => 0) 3 4 sampleEmptyState sampleOrder).sleptMs = 250 ∧
     (process_order (fun _ _ => 0) 3 4 sampleEmptyState sampleOrder).state.queue =
       sampleEmptyState.queue ++ [sampleOrder] ∧
     (process_order (fun _ _ => 0) 3 4 sampleEmptyState sampleOrder).outcome = .ok () ∧
     (process_order (fun _ _ => 0) 3 4 sampleEmptyState sampleOrder).state.orders =
       sampleEmptyState.orders) :=
  ⟨by decide, C7_empty_candidates_requeue (fun _ _ => 0) 3 4 sampleEmptyState sampleOrder (by decide)⟩

/-- Claim C8: for a fixed courier and fixed pickup, the total score is
strictly increasing in priority rank: Urgent beats High beats Normal
beats Low, all other factors equal. -/
theorem C8_priority_rank_strict (dist : GeoPoint → GeoPoint → ℚ)
    (c : Courier) (o : DeliveryOrder) :
    (compute_score dist c { o with priority := .High }).1 <
      (compute_score dist c { o with priority := .Urgent }).1 ∧
    (compute_score dist c { o with priority := .Normal }).1 <
      (compute_score dist c { o with priority := .High }).1 ∧
    (compute_score dist c { o with priority := .Low }).1 <
      (compute_score dist c { o with priority := .Normal }).1 := by
  simp only [compute_score, weighted_score, priority_score]
  unfold DISTANCE_WEIGHT LOAD_WEIGHT RATING_WEIGHT PRIORITY_WEIGHT
  norm_num



/-- Claim C9: `create_order` inserts the Pending record into the orders
registry before the queue send; when the send fails the handler returns
the 500 internal error and the Pending record is still stored —
the insertion is not rolled back. -/
theorem C9_no_rollback_on_send_failure (freshId now : Nat) (s : AppModel)
    (req : CreateOrderRequest) :
    (create_order freshId now false s req).2 =
      .error (.Internal "order queue send failed") ∧
    status_code (.Internal "order queue send failed") = 500 ∧
    lookupBy DeliveryOrder.id (create_order freshId now false s req).1.orders freshId =
      some (create_order_record freshId now req) ∧
    (create_order_record freshId now req).status = .Pending := by
  refine ⟨rfl, rfl, ?_, rfl⟩
  exact lookupBy_insertBy_self DeliveryOrder.id s.orders (create_order_record freshId now req)

/-- Claim C10: for an existing courier id, the status patch rewrites only
`status` and `updated_at` and the location patch rewrites only `location`
and `updated_at` — `id`, `name`, `capacity`, `current_load` and `rating`
survive both — each handler stores the patched record and returns it; and
because the status patch applies whatever status the body carries, it can
set a courier whose `current_load` equals its `capacity` back to
`Available`. -/
theorem C10_patch_handlers_frame (now now2 : Nat) (cs cs2 : List Courier)
    (id id2 : Nat) (st : CourierStatus) (loc : GeoPoint) (c c2 : Courier)
    (h : lookupBy Courier.id cs id = some c)
    (h2 : lookupBy Courier.id cs2 id2 = some c2) :
    ((update_courier_status now cs id st).2 = .ok (patch_status now st c) ∧
     lookupBy Courier.id (update_courier_status now cs id st).1 id =
       some (patch_status now st c) ∧
     (patch_status now st c).id = c.id ∧
     (patch_status now st c).name = c.name ∧
     (patch_status now st c).capacity = c.capacity ∧
     (patch_status now st c).current_load = c.current_load ∧
     (patch_status now st c).rating = c.rating ∧
     (patch_status now st c).location = c.location ∧
     (patch_status now st c).status = st ∧
     (patch_status now st c).updated_at = now) ∧
    ((update_courier_location now2 cs2 id2 loc).2 = .ok (patch_location now2 loc c2) ∧
     lookupBy Courier.id (update_courier_location now2 cs2 id2 loc).1 id2 =
       some (patch_location now2 loc c2) ∧
     (patch_location now2 loc c2).id = c2.id ∧
     (patch_location now2 loc c2).name = c2.name ∧
     (patch_location now2 loc c2).capacity = c2.capacity ∧
     (patch_location now2 loc c2).current_load = c2.current_load ∧
     (patch_location now2 loc c2).rating = c2.rating ∧
     (patch_location now2 loc c2).status = c2.status ∧
     (patch_location now2 loc c2).location = loc ∧
     (patch_location now2 loc c2).updated_at = now2) := by
  refine ⟨⟨?_, ?_, rfl, rfl, rfl, rfl, rfl, rfl, rfl, rfl⟩,
          ⟨?_, ?_, rfl, rfl, rfl, rfl, rfl, rfl, rfl, rfl⟩⟩
  · simp [update_courier_status, h]
  · simp only [update_courier_status, h]
    exact lookupBy_updateBy Courier.id cs id (patch_status now st) (fun _ => rfl) h
  · simp [update_courier_location, h2]
  · simp only [update_courier_location, h2]
    exact lookupBy_updateBy Courier.id cs2 id2 (patch_location now2 loc) (fun _ => rfl) h2

/-- Witness for C10: patching the fully loaded `Busy` courier back to
`Available`, and patching the location of `sampleCourier`; both registries are
singletons. -/
theorem C10_patch_handlers_frame_witness :
    (lookupBy Courier.id [sampleFullCourier] 2 = some sampleFullCourier) ∧
    (lookupBy Courier.id [sampleCourier] 1 = some sampleCourier) ∧
    (((update_courier_status 9 [sampleFullCourier] 2 .Available).2 =
        .ok (patch_status 9 .Available sampleFullCourier) ∧
      lookupBy Courier.id (update_courier_status 9 [sampleFullCourier] 2 .Available).1 2 =
        some (patch_status 9 .Available sampleFullCourier) ∧
      (patch_status 9 .Available sampleFullCourier).id = sampleFullCourier.id ∧
      (patch_status 9 .Available sampleFullCourier).name = sampleFullCourier.name ∧
      (patch_status 9 .Available sampleFullCourier).capacity = sampleFullCourier.capacity ∧
      (patch_status 9 .Available sampleFullCourier).current_load = sampleFullCourier.current_load ∧
      (patch_status 9 .Available sampleFullCourier).rating = sampleFullCourier.rating ∧
      (patch_status 9 .Available sampleFullCourier).location = sampleFullCourier.location ∧
      (patch_status 9 .Available sampleFullCourier).status = .Available ∧
      (patch_status 9 .Available sampleFullCourier).updated_at = 9) ∧
     ((update_courier_location 11 [sampleCourier] 1 ⟨2, 3⟩).2 =
        .ok (patch_location 11 ⟨2, 3⟩ sampleCourier) ∧
      lookupBy Courier.id (update_courier_location 11 [sampleCourier] 1 ⟨2, 3⟩).1 1 =
        some (patch_location 11 ⟨2, 3⟩ sampleCourier) ∧
      (patch_location 11 ⟨2, 3⟩ sampleCourier).id = sampleCourier.id ∧
      (patch_location 11 ⟨2, 3⟩ sampleCourier).name = sampleCourier.name ∧
      (patch_location 11 ⟨2, 3⟩ sampleCourier).capacity = sampleCourier.capacity ∧
      (patch_location 11 ⟨2, 3⟩ sampleCourier).current_load = sampleCourier.current_load ∧
      (patch_location 11 ⟨2, 3⟩ sampleCourier).rating = sampleCourier.rating ∧
      (patch_location 11 ⟨2, 3⟩ sampleCourier).status = sampleCourier.status ∧
      (patch_location 11 ⟨2, 3⟩ sampleCourier).location = ⟨2, 3⟩ ∧
      (patch_location 11 ⟨2, 3⟩ sampleCourier).updated_at = 11)) :=
  ⟨by decide, by decide,
   C10_patch_handlers_frame 9 11 [sampleFullCourier] [sampleCourier] 2 1
     .Available ⟨2, 3⟩ sampleFullCourier sampleCourier (by decide) (by decide)⟩


end DispatchRouter
